import Mathlib

/-!
# Verification of the svarX.ai bounded persistence store and model lifecycle

Shallow embedding of `src/ai-engine/personalization.py`,
`src/ai-engine/local-server.py` and `src/ai-engine/model_manager.py`.

Modelling conventions:
* SQLite tables are lists of row structures kept in rowid (insertion) order;
  `AUTOINCREMENT` ids are tracked by per-table counters in the store state.
* The on-disk file size is `tableBytes + slackBytes`: deleting rows moves their
  bytes into `slackBytes` (an SQLite file does not shrink on DELETE) and a
  successful `VACUUM` resets `slackBytes` to zero.  `get_db_size_mb` divides by
  1024*1024 as the Python code does; sizes are exact rationals.  The float
  thresholds of the source are exactly representable (Python:
  `5120*0.9 == 4608.0`, `int(50000*0.8) == 40000`, `int(50000*0.2) == 10000`,
  `int(25000*0.7) == 17500`, `int(25000*0.3) == 7500`), so a `ℚ`/`ℕ` model is
  faithful.
* Python exceptions are modelled explicitly.  The cleanup functions open
  their connection with the default isolation level, so their first `DELETE`
  begins an implicit transaction that nothing commits before the final
  `VACUUM`; on the Python versions the project targets (3.6+, launchers
  install 3.11) `VACUUM` therefore always raises
  `sqlite3.OperationalError: cannot VACUUM from within a transaction`, and the
  uncommitted deletes roll back when the abandoned connection is collected
  (verified against sqlite3 on CPython 3.11).  In `smart_cleanup` the
  training-pair trim statement is additionally invalid SQLite (`ORDER BY` /
  `LIMIT` may not precede `UNION`), so when the in-transaction pair count
  exceeds `MAX_TRAINING_PAIRS` that statement raises first — with the same
  rollback.  Either way a cleanup call returns the store unchanged beside the
  raised error; the delete tiers never have an observable effect.
* Timestamps (`time.time()`) are integers carried in the state (`now`); no
  operation advances the clock.
* String handling is re-implemented structurally over `List Char` so that the
  kernel can evaluate it (`re.sub(r">.*?\x24", ...)` truncates each line at its
  first `>` character; `re.sub(r"\s+", " ", ...)` collapses whitespace runs).
-/

set_option linter.unusedVariables false

namespace SvarX

/-! ## Character-level string helpers (kernel-computable) -/

/-- Whitespace test matching the characters Python's `\s` meets in practice
(space, tab, newline, carriage return). -/
def isWs (c : Char) : Bool :=
  c == ' ' || c == '\t' || c == '\n' || c == '\r'

/-- Python `str.strip()` on a character list. -/
def trimChars (l : List Char) : List Char :=
  ((l.dropWhile isWs).reverse.dropWhile isWs).reverse

/-- Split a character list on newline characters (cf. `re.MULTILINE` lines). -/
def splitLines : List Char → List (List Char)
  | [] => [[]]
  | c :: rest =>
    match splitLines rest with
    | [] => [[]]
    | line :: more => if c == '\n' then [] :: line :: more else (c :: line) :: more

/-- Rejoin lines with newline separators. -/
def joinLines : List (List Char) → List Char
  | [] => []
  | [x] => x
  | x :: y :: ys => x ++ '\n' :: joinLines (y :: ys)

/-- Embeds `re.sub(r">.*?\x24", "", line)`: drop everything from the first `>` of a
line to the end of that line. -/
def dropQuoted (line : List Char) : List Char :=
  line.takeWhile (fun c => !(c == '>'))

/-- Embeds `re.sub(r"\s+", " ", s)`: collapse every whitespace run to one space.  The
boolean argument records whether the previous character was whitespace. -/
def collapseWs : Bool → List Char → List Char
  | _, [] => []
  | prevWs, c :: rest =>
    if isWs c then
      if prevWs then collapseWs true rest else ' ' :: collapseWs true rest
    else c :: collapseWs false rest

/-- Embeds `personalization.sanitize_text`: strip, remove quoted-reply tails, collapse
whitespace, strip again. -/
def sanitize_text (s : String) : String :=
  let l := trimChars s.data
  let l := joinLines ((splitLines l).map dropQuoted)
  let l := collapseWs false l
  String.mk (trimChars l)

/-- Does `pat` occur at the head of `hay`? -/
def leadsWith : List Char → List Char → Bool
  | [], _ => true
  | _ :: _, [] => false
  | p :: ps, h :: hs => p == h && leadsWith ps hs

/-- Substring occurrence on character lists (Python's `pat in s`). -/
def hasSeq (pat : List Char) : List Char → Bool
  | [] => leadsWith pat []
  | h :: hs => leadsWith pat (h :: hs) || hasSeq pat hs

/-- Python `pat in s` on strings. -/
def hasSub (s pat : String) : Bool := hasSeq pat.data s.data

/-- Python `s.lower()` (ASCII is all the source ever feeds it). -/
def lowerStr (s : String) : String := String.mk (s.data.map Char.toLower)

/-! ## Data model: the four tables of `personalization.py` -/

/-- A row of the `samples` table. -/
structure SampleRow where
  id : Nat
  created_at : Int
  text : String
deriving DecidableEq

/-- A row of the `training_pairs` table. -/
structure PairRow where
  id : Nat
  created_at : Int
  original_email : String
  chosen_reply : String
  tone : String
  length : String
  user_rating : Int
deriving DecidableEq

/-- A row of the `interaction_feedback` table. -/
structure FeedbackRow where
  id : Nat
  created_at : Int
  interaction_type : String
  original_email : String
  suggestion : String
  feedback : String
  weight : ℚ
  context : String
deriving DecidableEq

/-- A row of the (lazily created) `email_patterns` table. -/
structure PatternRow where
  id : Nat
  created_at : Int
  email_snippet : String
  email_type : String
  formality : String
  urgency : String
  word_count : Nat
deriving DecidableEq

/-- The persistence store: the SQLite database file plus the bits of
environment the embedded operations need (clock, VACUUM failure injection). -/
structure Store where
  samples : List SampleRow
  training_pairs : List PairRow
  interaction_feedback : List FeedbackRow
  email_patterns : Option (List PatternRow)
  nextSampleId : Nat
  nextPairId : Nat
  nextFeedbackId : Nat
  nextPatternId : Nat
  slackBytes : Nat
  now : Int
deriving DecidableEq

/-- Storage limits from the top of `personalization.py`. -/
def MAX_SAMPLES : Nat := 50000

def MAX_TRAINING_PAIRS : Nat := 25000

def MAX_INTERACTIONS : Nat := 100000

def MAX_EMAIL_PATTERNS : Nat := 10000

def MAX_DB_SIZE_MB : ℚ := 5120

/-- Bytes a `samples` row contributes to the database file. -/
def sampleBytes (r : SampleRow) : Nat := r.text.length

/-- Bytes a `training_pairs` row contributes. -/
def pairBytes (r : PairRow) : Nat :=
  r.original_email.length + r.chosen_reply.length + r.tone.length + r.length.length

/-- Bytes an `interaction_feedback` row contributes. -/
def feedbackBytes (r : FeedbackRow) : Nat :=
  r.interaction_type.length + r.original_email.length + r.suggestion.length +
    r.feedback.length + r.context.length

/-- Bytes an `email_patterns` row contributes. -/
def patternBytes (r : PatternRow) : Nat :=
  r.email_snippet.length + r.email_type.length + r.formality.length + r.urgency.length

/-- Live data bytes of the whole store. -/
def tableBytes (st : Store) : Nat :=
  (st.samples.map sampleBytes).sum + (st.training_pairs.map pairBytes).sum +
    (st.interaction_feedback.map feedbackBytes).sum +
    (match st.email_patterns with
     | none => 0
     | some ps => (ps.map patternBytes).sum)

/-- Embeds `personalization.get_db_size_mb`: file size in MB (live data + free pages). -/
def get_db_size_mb (st : Store) : ℚ :=
  ((tableBytes st + st.slackBytes : Nat) : ℚ) / 1048576

/-! ## Cleanup tiers (`smart_cleanup`, `deep_cleanup`) -/

/-- Failures an embedded database operation can raise. -/
inductive DbErr
  /-- `sqlite3.OperationalError: cannot VACUUM from within a transaction`,
  raised by every `cur.execute("VACUUM")` of the cleanup functions: the
  preceding `DELETE`s opened an implicit transaction that is never committed
  first. -/
  | vacuumFailed
  /-- `sqlite3.OperationalError: ORDER BY clause should come after UNION not
  before`, raised by the training-pair trim statement of `smart_cleanup`. -/
  | sqlSyntax
deriving DecidableEq

/-- Tier 1 on `training_pairs`: the in-transaction state after
`DELETE FROM training_pairs WHERE id NOT IN (SELECT MIN(id) ... GROUP BY
original_email, chosen_reply)` — keep `MIN(id)` per group.  The later
`SELECT COUNT(*) FROM training_pairs` of step 4 reads this uncommitted state,
which is why the pair-count guard below is stated on the deduplicated list
(the deletes themselves are rolled back when the call raises). -/
def dedupPairs (l : List PairRow) : List PairRow :=
  l.filter fun r =>
    decide (∀ r2 ∈ l,
      r2.original_email = r.original_email → r2.chosen_reply = r.chosen_reply →
        r.id ≤ r2.id)

/-- Embeds `personalization.smart_cleanup`.  The function never completes on
the targeted Python: its unconditional dedup `DELETE`s (steps 1 and 2) open an
implicit transaction which nothing commits, so `cur.execute("VACUUM")` at
personalization.py:199 raises `OperationalError: cannot VACUUM from within a
transaction`, and every uncommitted delete rolls back when the abandoned
connection is collected — the observable outcome is the unchanged store plus
the raised error.  One statement can raise even earlier: the tier-4 trim
(`DELETE ... ORDER BY ... LIMIT ? UNION ...`) is invalid SQLite (`ORDER BY` /
`LIMIT` may not precede `UNION`), so when the in-transaction pair count
(`SELECT COUNT(*)` after the dedup delete, i.e. the length of
`dedupPairs st.training_pairs`) exceeds `MAX_TRAINING_PAIRS`, that statement
raises first — with the same rollback. -/
def smart_cleanup (st : Store) : Store × Except DbErr ℚ :=
  if (dedupPairs st.training_pairs).length > MAX_TRAINING_PAIRS then
    (st, Except.error DbErr.sqlSyntax)
  else (st, Except.error DbErr.vacuumFailed)

/-- Embeds `personalization.deep_cleanup`.  Its emergency `DELETE`s
(personalization.py:270-295, all valid SQL) open the same kind of implicit
transaction, so `cur.execute("VACUUM")` at personalization.py:300 always
raises and the deletes — including the uncommitted `DROP TABLE IF EXISTS
email_patterns` — roll back: the observable outcome is the unchanged store
plus the raised `OperationalError`. -/
def deep_cleanup (st : Store) : Store × Option DbErr :=
  (st, some DbErr.vacuumFailed)

/-- Embeds `personalization.check_storage_and_cleanup`: run `smart_cleanup` when the
file exceeds the budget, and `deep_cleanup` when the result is still above 90%
of it (`MAX_DB_SIZE_MB * 0.9 == 4608.0` exactly in Python floats).  Exceptions
propagate to the caller. -/
def check_storage_and_cleanup (st : Store) : Store × Except DbErr Bool :=
  if get_db_size_mb st > MAX_DB_SIZE_MB then
    match smart_cleanup st with
    | (st1, Except.error e) => (st1, Except.error e)
    | (st1, Except.ok final_size) =>
      if final_size > MAX_DB_SIZE_MB * 9 / 10 then
        match deep_cleanup st1 with
        | (st2, some e) => (st2, Except.error e)
        | (st2, none) => (st2, Except.ok true)
      else (st1, Except.ok true)
  else (st, Except.ok false)

/-! ## Producer calls and status -/

/-- Outcome of a Python call: a returned value or a propagated exception. -/
inductive CallResult
  | ret (b : Bool)
  | raised (e : DbErr)
deriving DecidableEq

/-- The `context` dict handed to `add_training_pair` / `add_interaction_feedback`
(`context.get('tone', 'professional')`, `context.get('length', 'medium')`). -/
structure Ctx where
  tone : Option String := none
  length : Option String := none
deriving DecidableEq

/-- The `learning_data` dict of `add_interaction_feedback` (the code indexes
the first four keys directly, so a call without them would itself raise; the
embedding models well-formed calls). -/
structure LearningData where
  interaction_type : String
  original_email : String
  suggestion : String
  feedback : String
  ctx : Ctx
deriving DecidableEq

/-- Python `json.dumps` of the compressed context dict (tone and length). -/
def compressContext (c : Ctx) : String :=
  "\x7b\"tone\": \"" ++ c.tone.getD "professional" ++ "\", \"length\": \"" ++
    c.length.getD "medium" ++ "\"\x7d"

/-- Embeds `personalization.add_sample`: sanitize, reject short text, run the
pre-insert budget check (exceptions propagate), reject exact duplicates,
otherwise insert. -/
def add_sample (st : Store) (textIn : String) : Store × CallResult :=
  let text := sanitize_text textIn
  if text = "" ∨ text.length < 10 then (st, CallResult.ret false)
  else
    match check_storage_and_cleanup st with
    | (st1, Except.error e) => (st1, CallResult.raised e)
    | (st1, Except.ok _) =>
      if st1.samples.any (fun r => r.text == text) then (st1, CallResult.ret false)
      else
        ({ st1 with
            samples := st1.samples ++ [⟨st1.nextSampleId, st1.now, text⟩],
            nextSampleId := st1.nextSampleId + 1 },
          CallResult.ret true)

/-- Embeds `personalization.add_training_pair`: sanitize both strings, enforce the
minimum lengths, run the budget check, reject when a stored pair shares the
original or the reply, otherwise insert with rating 0. -/
def add_training_pair (st : Store) (oIn rIn : String) (ctx : Ctx) :
    Store × CallResult :=
  let o := sanitize_text oIn
  let r := sanitize_text rIn
  if o = "" ∨ r = "" then (st, CallResult.ret false)
  else if o.length < 20 ∨ r.length < 10 then (st, CallResult.ret false)
  else
    match check_storage_and_cleanup st with
    | (st1, Except.error e) => (st1, CallResult.raised e)
    | (st1, Except.ok _) =>
      if st1.training_pairs.any (fun p => p.original_email == o || p.chosen_reply == r) then
        (st1, CallResult.ret false)
      else
        ({ st1 with
            training_pairs := st1.training_pairs ++
              [⟨st1.nextPairId, st1.now, o, r, ctx.tone.getD "professional",
                ctx.length.getD "medium", 0⟩],
            nextPairId := st1.nextPairId + 1 },
          CallResult.ret true)

/-- Embeds `personalization.add_interaction_feedback`: drop weak negative feedback
(`weight < 0 and abs(weight) < 0.3`) before anything else, then run the budget
check and insert with both long text fields truncated to 200 characters. -/
def add_interaction_feedback (st : Store) (ld : LearningData) (weight : ℚ) :
    Store × CallResult :=
  if weight < 0 ∧ |weight| < 3/10 then (st, CallResult.ret false)
  else
    match check_storage_and_cleanup st with
    | (st1, Except.error e) => (st1, CallResult.raised e)
    | (st1, Except.ok _) =>
      ({ st1 with
          interaction_feedback := st1.interaction_feedback ++
            [⟨st1.nextFeedbackId, st1.now, ld.interaction_type,
              String.mk (ld.original_email.data.take 200),
              String.mk (ld.suggestion.data.take 200),
              ld.feedback, weight, compressContext ld.ctx⟩],
          nextFeedbackId := st1.nextFeedbackId + 1 },
        CallResult.ret true)

/-- The dict returned by `personalization.get_storage_status`. -/
structure StorageStatus where
  size_mb : ℚ
  max_size_mb : ℚ
  usage_percent : ℚ
  samples : Nat
  training_pairs : Nat
  interactions : Nat
  status : String
deriving DecidableEq

/-- Embeds `personalization.get_storage_status`: read-only derivation (the function
runs only `SELECT COUNT(*)` queries, so the store is returned unchanged). -/
def get_storage_status (st : Store) : Store × StorageStatus :=
  let current_size := get_db_size_mb st
  let usage_percent := current_size / MAX_DB_SIZE_MB * 100
  (st,
    { size_mb := current_size
      max_size_mb := MAX_DB_SIZE_MB
      usage_percent := usage_percent
      samples := st.samples.length
      training_pairs := st.training_pairs.length
      interactions := st.interaction_feedback.length
      status :=
        if usage_percent > 95 then "critical"
        else if usage_percent > 80 then "warning" else "healthy" })

/-! ## Model lifecycle (`local-server.py`, `model_manager.py`) -/

/-- The module-level slot state of `local-server.py`: `LLAMA`, `MODEL_LOADED`,
`LAST_USED`. -/
structure ServerState where
  llama : Option Nat
  modelLoaded : Bool
  lastUsed : Int
deriving DecidableEq

/-- The environment `local-server.py` runs against: the weights file that
`model_manager.get_model_path` resolves (with its byte size when present),
whether the `Llama(...)` constructor would succeed, and the opaque end-to-end
inference outcome (the spec treats `Infer` as an external collaborator). -/
structure ServerEnv where
  modelFile : Option Nat
  loadSucceeds : Bool
  inferReply : String → String → String → Bool × Bool × String

/-- Embeds `model_manager.model_exists`: the resolved path exists and
`st_size > 1000`. -/
def model_exists (env : ServerEnv) : Bool :=
  match env.modelFile with
  | none => false
  | some sz => decide (sz > 1000)

/-- Constant `IDLE_TIMEOUT` of `local-server.py` (seconds). -/
def IDLE_TIMEOUT : Int := 60

/-- The idle monitor's polling interval (`time.sleep(15)`). -/
def MONITOR_INTERVAL : Int := 15

/-- Embeds `local-server.unload_model`: drop the handle and the loaded flag (a no-op
when no handle is held); power-mode restoration and `gc.collect()` have no
slot-state effect. -/
def unload_model (s : ServerState) : ServerState :=
  if s.llama.isSome then { s with llama := none, modelLoaded := false } else s

/-- Embeds `local-server.load_model`: refresh `LAST_USED`; return immediately when a
handle exists (unless `force_reload`); fail without state change when the
weights file is absent or ≤ 1000 bytes; otherwise construct the handle when
the library succeeds.  (Starting the idle-monitor thread and the power-mode
switch have no slot-state effect.) -/
def load_model (env : ServerEnv) (s : ServerState) (now : Int)
    (force_reload : Bool) : ServerState × Bool :=
  let s := { s with lastUsed := now }
  if s.llama.isSome ∧ ¬force_reload then ({ s with modelLoaded := true }, true)
  else
    let s := if force_reload ∧ s.llama.isSome then unload_model s else s
    if ¬model_exists env then (s, false)
    else if env.loadSucceeds then ({ s with llama := some 0, modelLoaded := true }, true)
    else (s, false)

/-- The JSON body `generate` returns: `ok`, `from_model` (absent on the
empty-input 400 response), `reply`. -/
structure GenResponse where
  ok : Bool
  from_model : Option Bool
  reply : String
deriving DecidableEq

/-- Embeds `local-server.fallback_reply`: the rule-based reply generator. -/
def fallback_reply (email_text tone lengthP : String) : String :=
  let text := lowerStr email_text
  let base :=
    if hasSub text "meeting" || hasSub text "resched" || hasSub text "reschedule" ||
        hasSub text "calendar" then
      "I can accommodate a schedule change. Please share your preferred times and I\x27ll confirm availability."
    else if hasSub text "thank" || hasSub text "appreciate" || hasSub text "grateful" then
      "You\x27re very welcome! I\x27m glad I could help. Please don\x27t hesitate to reach out if you need anything else."
    else if hasSub text "urgent" || hasSub text "asap" || hasSub text "immediate" ||
        hasSub text "priority" then
      "I understand this is time-sensitive. I\x27ll prioritize this and get back to you as soon as possible."
    else if hasSub text "question" || hasSub text "clarif" || hasSub text "explain" ||
        hasSub text "help" then
      "Thank you for your question. I\x27ll review this carefully and provide a detailed response shortly."
    else if hasSub text "confirm" || hasSub text "verification" || hasSub text "verify" then
      "I can confirm the details for you. Let me review everything and get back to you with verification."
    else if hasSub text "update" || hasSub text "status" || hasSub text "progress" then
      "Thank you for checking in. I\x27ll provide you with a comprehensive update on the current status."
    else if hasSub text "sorry" || hasSub text "apolog" || hasSub text "mistake" then
      "No problem at all! These things happen. Let me know how I can help resolve this."
    else
      "Thank you for reaching out. I\x27ve received your message and will respond with the information you need."
  let base :=
    if tone = "casual" then
      ((base.replace "Thank you for" "Thanks for").replace
        "I\x27m glad I could help" "Happy to help").replace
        "Please don\x27t hesitate" "Feel free"
    else if tone = "formal" then "Dear Colleague,\n\n" ++ base ++ "\n\nBest regards"
    else base
  if lengthP = "short" then ((base.splitOn ".").headD "") ++ "."
  else if lengthP = "long" then
    base ++ " I will ensure all aspects are thoroughly addressed and provide you with complete documentation as needed."
  else base

/-- Embeds `local-server.generate`, up to the inference boundary: empty input is a
400 response; `LAST_USED` is refreshed; a failed `load_model` (or a missing
handle afterwards) answers with `fallback_reply` and `from_model = False`.
The in-model path — prompt construction, the opaque `LLAMA(...)` call, reply
cleaning and the one-shot retry — is summarised by the environment's
`inferReply` oracle (`ok`, `from_model`, `reply`), which the claims never
constrain. -/
def generate (env : ServerEnv) (s : ServerState) (now : Int)
    (email_text tone lengthP : String) : ServerState × GenResponse :=
  if email_text = "" then (s, ⟨false, none, "No input provided."⟩)
  else
    let s1 := { s with lastUsed := now }
    match load_model env s1 now false with
    | (s2, false) =>
      (s2, ⟨false, some false, fallback_reply email_text tone lengthP⟩)
    | (s2, true) =>
      if s2.llama.isNone then
        (s2, ⟨false, some false, fallback_reply email_text tone lengthP⟩)
      else
        let r := env.inferReply email_text tone lengthP
        (s2, ⟨r.1, some r.2.1, r.2.2⟩)

/-- One wake-up of `local-server.idle_monitor` at time `now`: when the model
is loaded and `LAST_USED > 0`, an idle time above `IDLE_TIMEOUT` unloads the
model and breaks the loop.  The memory/CPU corrective actions (`gc.collect()`,
a throttling sleep) and the background-learning call touch no slot state. -/
def monitor_body (s : ServerState) (now : Int) : ServerState :=
  if s.modelLoaded ∧ s.lastUsed > 0 then
    if now - s.lastUsed > IDLE_TIMEOUT then unload_model s else s
  else s

/-- The idle-monitor loop, idealized to a discrete clock: iteration `k + 1`
wakes at `t0 + 15 * (k + 1)` (the `time.sleep(15)` dominates an iteration;
the loop body is treated as instantaneous).  The loop exits as soon as
`MODEL_LOADED` is false — either the `while` condition or the `break` after
unloading. -/
def monitorRun (s : ServerState) (t0 : Int) : Nat → ServerState
  | 0 => s
  | k + 1 =>
    let s' := monitorRun s t0 k
    if s'.modelLoaded then monitor_body s' (t0 + MONITOR_INTERVAL * (k + 1 : Nat)) else s'

/-! ## Claim-side definition (for the refinement comparison of C9) -/

/-- Modelled from the claim's words, for comparison with
`get_storage_status`: health tier `healthy` when usage is below 80%,
`warning` when usage is between 80% and 95%, `critical` when usage exceeds
95%. -/
def claimedHealthTier (usage : ℚ) : String :=
  if usage < 80 then "healthy" else if usage ≤ 95 then "warning" else "critical"

/-- The uniqueness invariant of §3 on the `training_pairs` table: no two rows
share the `original_email` or share the `chosen_reply`. -/
def PairsUnique (l : List PairRow) : Prop :=
  l.Pairwise fun p q => p.original_email ≠ q.original_email ∧ p.chosen_reply ≠ q.chosen_reply

/-! ## Concrete stores used by counterexamples and witnesses -/

/-- An empty store template: fresh database, clock at `10^9` seconds. -/
def emptyStore : Store :=
  { samples := [], training_pairs := [], interaction_feedback := [],
    email_patterns := none, nextSampleId := 1, nextPairId := 1,
    nextFeedbackId := 1, nextPatternId := 1, slackBytes := 0,
    now := 1000000000 }

/-- C1 counterexample store: a database file of 6000 MB of free pages (over
the 5120 MB budget), so the pre-insert check runs the always-raising
`smart_cleanup`. -/
def exC1 : Store := { emptyStore with slackBytes := 6000 * 1048576 }

/-- C1 witness store: same shape as `exC1` but with one feedback row, so the
three write entry points all hit the raising cleanup. -/
def witC1 : Store :=
  { emptyStore with
    interaction_feedback := [⟨7, 5, "selected", "old email", "old suggestion", "selected", 1, "c"⟩],
    nextFeedbackId := 8, slackBytes := 5500 * 1048576 }

/-- C4 counterexample store: over budget (6000 MB of free pages) and already
holding the target text, so the duplicate `add_sample` call hits the raising
pre-insert cleanup instead of returning False. -/
def exC4 : Store :=
  { emptyStore with
    samples := [⟨1, 12, "this is the target sample text"⟩],
    nextSampleId := 2, slackBytes := 6000 * 1048576 }

/-- C4 witness store: within budget, already holding the target text. -/
def witC4 : Store :=
  { emptyStore with samples := [⟨1, 5, "hello world writing sample"⟩], nextSampleId := 2 }

/-- C5 witness store: a small in-budget store. -/
def witC5 : Store :=
  { emptyStore with samples := [⟨1, 5, "some unrelated sample"⟩], nextSampleId := 2 }

/-- C8 counterexample store: over budget (6000 MB of free pages) and holding
one training pair whose `chosen_reply` the incoming call reuses; the
pre-insert budget check raises before the duplicate check is ever reached. -/
def exC8 : Store :=
  { emptyStore with
    training_pairs := [⟨1, 0, "an earlier stored original email",
                        "the reply we will collide with", "professional", "medium", 0⟩],
    nextPairId := 2, slackBytes := 6000 * 1048576 }

/-- C8 witness store: within budget, holding one training pair. -/
def witC8 : Store :=
  { emptyStore with
    training_pairs := [⟨1, 5, "an original email that is long enough",
                        "a stored reply text", "professional", "medium", 0⟩],
    nextPairId := 2 }

/-- C9 counterexample store: file size exactly 4096 MB, i.e. usage exactly
80% of the 5120 MB budget. -/
def exC9 : Store := { emptyStore with slackBytes := 4096 * 1048576 }

/-- C9 witness store: a tiny store (usage far below 80%). -/
def witC9 : Store :=
  { emptyStore with samples := [⟨1, 5, "just a little text"⟩], nextSampleId := 2 }

/-- C10 counterexample store: over budget purely through free pages. -/
def exC10 : Store := { emptyStore with slackBytes := 6000 * 1048576 }

/-- C10 witness store: a small in-budget store. -/
def witC10 : Store :=
  { emptyStore with samples := [⟨1, 5, "another unrelated sample"⟩], nextSampleId := 2 }

/-- C6 witness slot state: loaded, last used at time 100. -/
def witSlot : ServerState := { llama := some 0, modelLoaded := true, lastUsed := 100 }

/-- C7 witness environment: the weights file exists but is only 500 bytes
(below the 1000-byte minimum), the library would succeed, inference oracle
irrelevant. -/
def witEnv : ServerEnv :=
  { modelFile := some 500, loadSucceeds := true,
    inferReply := fun _ _ _ => (true, true, "") }

/-- C7 witness slot state: unloaded. -/
def witSlot7 : ServerState := { llama := none, modelLoaded := false, lastUsed := 0 }

/-- A well-formed `learning_data` dict used by witnesses. -/
def witLD : LearningData :=
  { interaction_type := "thumbs_up", original_email := "an email",
    suggestion := "a suggestion", feedback := "positive", ctx := ⟨none, none⟩ }

/-! ## Helper lemmas: the cleanups always raise and change nothing -/

theorem smart_cleanup_fst (st : Store) : (smart_cleanup st).1 = st := by
  unfold smart_cleanup
  split <;> rfl

theorem smart_cleanup_snd (st : Store) :
    (smart_cleanup st).2 =
      if (dedupPairs st.training_pairs).length > MAX_TRAINING_PAIRS then
        Except.error DbErr.sqlSyntax
      else Except.error DbErr.vacuumFailed := by
  unfold smart_cleanup
  split <;> rfl

theorem deep_cleanup_eq (st : Store) :
    deep_cleanup st = (st, some DbErr.vacuumFailed) := rfl

theorem check_storage_within_budget {st : Store}
    (h : ¬get_db_size_mb st > MAX_DB_SIZE_MB) :
    check_storage_and_cleanup st = (st, Except.ok false) := by
  unfold check_storage_and_cleanup
  simp [h]

theorem check_storage_eq_vacuum_fail {st : Store}
    (hb : get_db_size_mb st > MAX_DB_SIZE_MB)
    (hp : ¬(dedupPairs st.training_pairs).length > MAX_TRAINING_PAIRS) :
    check_storage_and_cleanup st = (st, Except.error DbErr.vacuumFailed) := by
  unfold check_storage_and_cleanup smart_cleanup
  simp [hb, hp]

theorem check_storage_eq_sql_syntax {st : Store}
    (hb : get_db_size_mb st > MAX_DB_SIZE_MB)
    (hp : (dedupPairs st.training_pairs).length > MAX_TRAINING_PAIRS) :
    check_storage_and_cleanup st = (st, Except.error DbErr.sqlSyntax) := by
  unfold check_storage_and_cleanup smart_cleanup
  simp [hb, hp]

theorem check_storage_fst (st : Store) : (check_storage_and_cleanup st).1 = st := by
  unfold check_storage_and_cleanup smart_cleanup
  by_cases hb : get_db_size_mb st > MAX_DB_SIZE_MB <;>
    by_cases hp : (dedupPairs st.training_pairs).length > MAX_TRAINING_PAIRS <;>
    simp [hb, hp]

theorem check_storage_samples_sublist (st : Store) :
    (check_storage_and_cleanup st).1.samples.Sublist st.samples := by
  rw [check_storage_fst]

theorem check_storage_pairs_sublist (st : Store) :
    (check_storage_and_cleanup st).1.training_pairs.Sublist st.training_pairs := by
  rw [check_storage_fst]

theorem check_storage_feedback_sublist (st : Store) :
    (check_storage_and_cleanup st).1.interaction_feedback.Sublist
      st.interaction_feedback := by
  rw [check_storage_fst]

/-! ## Bridges between the rational thresholds and byte counts -/

theorem size_gt_budget_iff (st : Store) :
    get_db_size_mb st > MAX_DB_SIZE_MB ↔ 5368709120 < tableBytes st + st.slackBytes := by
  unfold get_db_size_mb MAX_DB_SIZE_MB
  rw [gt_iff_lt, lt_div_iff₀ (by norm_num : (0:ℚ) < 1048576)]
  constructor
  · intro h
    have : (5368709120 : ℚ) < ((tableBytes st + st.slackBytes : Nat) : ℚ) := by linarith
    exact_mod_cast this
  · intro h
    have : (5368709120 : ℚ) < ((tableBytes st + st.slackBytes : Nat) : ℚ) := by exact_mod_cast h
    linarith

theorem size_gt_90pct_iff (st : Store) :
    get_db_size_mb st > MAX_DB_SIZE_MB * 9 / 10 ↔
      4831838208 < tableBytes st + st.slackBytes := by
  unfold get_db_size_mb MAX_DB_SIZE_MB
  rw [gt_iff_lt]
  rw [show (5120 : ℚ) * 9 / 10 = 4608 by norm_num]
  rw [lt_div_iff₀ (by norm_num : (0:ℚ) < 1048576)]
  constructor
  · intro h
    have : (4831838208 : ℚ) < ((tableBytes st + st.slackBytes : Nat) : ℚ) := by linarith
    exact_mod_cast this
  · intro h
    have : (4831838208 : ℚ) < ((tableBytes st + st.slackBytes : Nat) : ℚ) := by exact_mod_cast h
    linarith

theorem usage_gt_95_iff (st : Store) :
    get_db_size_mb st / MAX_DB_SIZE_MB * 100 > 95 ↔
      5100273664 < tableBytes st + st.slackBytes := by
  unfold get_db_size_mb MAX_DB_SIZE_MB
  rw [gt_iff_lt, div_div, div_mul_eq_mul_div,
    lt_div_iff₀ (by norm_num : (0:ℚ) < 1048576 * 5120)]
  constructor
  · intro h
    have : (5100273664 : ℚ) < ((tableBytes st + st.slackBytes : Nat) : ℚ) := by linarith
    exact_mod_cast this
  · intro h
    have : (5100273664 : ℚ) < ((tableBytes st + st.slackBytes : Nat) : ℚ) := by exact_mod_cast h
    linarith

theorem usage_gt_80_iff (st : Store) :
    get_db_size_mb st / MAX_DB_SIZE_MB * 100 > 80 ↔
      4294967296 < tableBytes st + st.slackBytes := by
  unfold get_db_size_mb MAX_DB_SIZE_MB
  rw [gt_iff_lt, div_div, div_mul_eq_mul_div,
    lt_div_iff₀ (by norm_num : (0:ℚ) < 1048576 * 5120)]
  constructor
  · intro h
    have : (4294967296 : ℚ) < ((tableBytes st + st.slackBytes : Nat) : ℚ) := by linarith
    exact_mod_cast this
  · intro h
    have : (4294967296 : ℚ) < ((tableBytes st + st.slackBytes : Nat) : ℚ) := by exact_mod_cast h
    linarith

/-! ## C1 -/

/-- C1 counterexample: on a store over the 5120 MB budget, `add_sample` with
perfectly valid, fresh text propagates the cleanup exception (`VACUUM` raises
inside the implicit transaction opened by the cleanup deletes) and never
attempts the insert — the samples table stays empty.  The claim as stated
(the insert is still attempted and the cleanup error is surfaced separately)
is therefore false at this input. -/
theorem C1_counterexample :
    get_db_size_mb exC1 > MAX_DB_SIZE_MB ∧
    add_sample exC1 "a perfectly valid writing sample" =
      (exC1, CallResult.raised DbErr.vacuumFailed) ∧
    exC1.samples = [] := by
  have hb : get_db_size_mb exC1 > MAX_DB_SIZE_MB := by
    rw [size_gt_budget_iff]; decide
  have hc : check_storage_and_cleanup exC1 = (exC1, Except.error DbErr.vacuumFailed) :=
    check_storage_eq_vacuum_fail hb (by decide)
  refine ⟨hb, ?_, rfl⟩
  unfold add_sample
  rw [if_neg (by decide), hc]

/-- C1 (amended): when the pre-insert cleanup raises, the exception propagates
to the caller (the call's outcome is `raised`, not a boolean) and the insert
is never attempted — for each of the three write entry points, the written
table of the post-state is a sublist of the pre-state's (in fact the
rolled-back cleanup transaction leaves it identical; no row is ever added). -/
theorem C1_cleanup_error_aborts_write :
    (∀ (st : Store) (t : String) (st' : Store) (e : DbErr),
        add_sample st t = (st', CallResult.raised e) →
        st'.samples.Sublist st.samples) ∧
    (∀ (st : Store) (o r : String) (ctx : Ctx) (st' : Store) (e : DbErr),
        add_training_pair st o r ctx = (st', CallResult.raised e) →
        st'.training_pairs.Sublist st.training_pairs) ∧
    (∀ (st : Store) (ld : LearningData) (w : ℚ) (st' : Store) (e : DbErr),
        add_interaction_feedback st ld w = (st', CallResult.raised e) →
        st'.interaction_feedback.Sublist st.interaction_feedback) := by
  refine ⟨?_, ?_, ?_⟩
  · intro st t st' e h
    unfold add_sample at h
    split at h
    next st1 e2 heq =>
      dsimp only at h
      split at h
      · simp at h
      · simp only [Prod.mk.injEq] at h
        obtain ⟨h1, _⟩ := h
        subst h1
        have hs := check_storage_samples_sublist st
        rw [heq] at hs
        exact hs
    next st1 b heq =>
      dsimp only at h
      split at h
      · simp at h
      · split at h <;> simp at h
  · intro st o r ctx st' e h
    unfold add_training_pair at h
    split at h
    next st1 e2 heq =>
      dsimp only at h
      split at h
      · simp at h
      · split at h
        · simp at h
        · simp only [Prod.mk.injEq] at h
          obtain ⟨h1, _⟩ := h
          subst h1
          have hs := check_storage_pairs_sublist st
          rw [heq] at hs
          exact hs
    next st1 b heq =>
      dsimp only at h
      split at h
      · simp at h
      · split at h
        · simp at h
        · split at h <;> simp at h
  · intro st ld w st' e h
    unfold add_interaction_feedback at h
    split at h
    · simp at h
    · split at h
      next st1 e2 heq =>
        simp only [Prod.mk.injEq] at h
        obtain ⟨h1, _⟩ := h
        subst h1
        have hs := check_storage_feedback_sublist st
        rw [heq] at hs
        exact hs
      next st1 b heq => simp at h

/-- C1 witness: the amended theorem applied to a concrete over-budget store
with a failing `VACUUM`, at all three entry points. -/
theorem C1_witness :
    (add_sample witC1 "a brand new writing sample").1.samples.Sublist
      witC1.samples ∧
    (add_training_pair witC1 "an original email of decent length"
        "a new reply text" ⟨none, none⟩).1.training_pairs.Sublist
      witC1.training_pairs ∧
    (add_interaction_feedback witC1 witLD (1/2)).1.interaction_feedback.Sublist
      witC1.interaction_feedback := by
  have hb : get_db_size_mb witC1 > MAX_DB_SIZE_MB := by
    rw [size_gt_budget_iff]; decide
  have hc : check_storage_and_cleanup witC1 = (witC1, Except.error DbErr.vacuumFailed) :=
    check_storage_eq_vacuum_fail hb (by decide)
  have h1 : add_sample witC1 "a brand new writing sample" =
      (witC1, CallResult.raised DbErr.vacuumFailed) := by
    unfold add_sample
    rw [if_neg (by decide), hc]
  have h2 : add_training_pair witC1 "an original email of decent length"
      "a new reply text" ⟨none, none⟩ =
      (witC1, CallResult.raised DbErr.vacuumFailed) := by
    unfold add_training_pair
    rw [if_neg (by decide), if_neg (by decide), hc]
  have h3 : add_interaction_feedback witC1 witLD (1/2) =
      (witC1, CallResult.raised DbErr.vacuumFailed) := by
    unfold add_interaction_feedback
    rw [if_neg (by norm_num), hc]
  refine ⟨?_, ?_, ?_⟩
  · have key := C1_cleanup_error_aborts_write.1 witC1 "a brand new writing sample"
      witC1 DbErr.vacuumFailed h1
    simpa only [h1] using key
  · have key := C1_cleanup_error_aborts_write.2.1 witC1 "an original email of decent length"
      "a new reply text" ⟨none, none⟩ witC1 DbErr.vacuumFailed h2
    simpa only [h2] using key
  · have key := C1_cleanup_error_aborts_write.2.2 witC1 witLD (1/2) witC1
      DbErr.vacuumFailed h3
    simpa only [h3] using key

/-! ## C9 -/

/-- C9 counterexample: a store whose file is exactly 4096 MB has usage exactly
80%; `get_storage_status` reports `healthy` (the code's comparison is the
strict `usage_percent > 80`), while the claim's tiering — `healthy` below 80,
`warning` between 80 and 95 — puts 80% in the `warning` band. -/
theorem C9_counterexample :
    (get_storage_status exC9).2.usage_percent = 80 ∧
    (get_storage_status exC9).2.status = "healthy" ∧
    claimedHealthTier ((get_storage_status exC9).2.usage_percent) = "warning" := by
  have hu : get_db_size_mb exC9 / MAX_DB_SIZE_MB * 100 = 80 := by
    unfold get_db_size_mb MAX_DB_SIZE_MB
    rw [show tableBytes exC9 + exC9.slackBytes = 4294967296 from by decide]
    norm_num
  refine ⟨hu, ?_, ?_⟩
  · show (if get_db_size_mb exC9 / MAX_DB_SIZE_MB * 100 > 95 then "critical"
      else if get_db_size_mb exC9 / MAX_DB_SIZE_MB * 100 > 80 then "warning"
      else "healthy") = "healthy"
    rw [hu]
    norm_num
  · show claimedHealthTier (get_db_size_mb exC9 / MAX_DB_SIZE_MB * 100) = "warning"
    rw [hu]
    unfold claimedHealthTier
    norm_num

/-- C9 (amended): `get_storage_status` is purely derived — it returns the
store unchanged, having run only `SELECT COUNT(*)` queries — and the health
tier is `healthy` when usage ≤ 80%, `warning` when 80% < usage ≤ 95%, and
`critical` when usage > 95% (the code's comparisons are strict, so usage of
exactly 80% is `healthy` and exactly 95% is `warning`). -/
theorem C9_status_pure_and_tiers :
    ∀ st : Store,
      (get_storage_status st).1 = st ∧
      ((get_storage_status st).2.usage_percent ≤ 80 →
        (get_storage_status st).2.status = "healthy") ∧
      (80 < (get_storage_status st).2.usage_percent →
        (get_storage_status st).2.usage_percent ≤ 95 →
        (get_storage_status st).2.status = "warning") ∧
      (95 < (get_storage_status st).2.usage_percent →
        (get_storage_status st).2.status = "critical") := by
  intro st
  refine ⟨rfl, ?_, ?_, ?_⟩
  · intro h
    show (if get_db_size_mb st / MAX_DB_SIZE_MB * 100 > 95 then "critical"
      else if get_db_size_mb st / MAX_DB_SIZE_MB * 100 > 80 then "warning"
      else "healthy") = "healthy"
    replace h : get_db_size_mb st / MAX_DB_SIZE_MB * 100 ≤ 80 := h
    rw [if_neg (by push_neg; linarith), if_neg (by push_neg; linarith)]
  · intro h h2
    show (if get_db_size_mb st / MAX_DB_SIZE_MB * 100 > 95 then "critical"
      else if get_db_size_mb st / MAX_DB_SIZE_MB * 100 > 80 then "warning"
      else "healthy") = "warning"
    replace h : 80 < get_db_size_mb st / MAX_DB_SIZE_MB * 100 := h
    replace h2 : get_db_size_mb st / MAX_DB_SIZE_MB * 100 ≤ 95 := h2
    rw [if_neg (by push_neg; linarith), if_pos (by exact h)]
  · intro h
    show (if get_db_size_mb st / MAX_DB_SIZE_MB * 100 > 95 then "critical"
      else if get_db_size_mb st / MAX_DB_SIZE_MB * 100 > 80 then "warning"
      else "healthy") = "critical"
    replace h : 95 < get_db_size_mb st / MAX_DB_SIZE_MB * 100 := h
    rw [if_pos (by exact h)]

/-- C9 witness: the amended theorem evaluated on a small store (usage far
below 80%). -/
theorem C9_witness :
    (get_storage_status witC9).1 = witC9 ∧
    (get_storage_status witC9).2.status = "healthy" := by
  refine ⟨(C9_status_pure_and_tiers witC9).1, (C9_status_pure_and_tiers witC9).2.1 ?_⟩
  show get_db_size_mb witC9 / MAX_DB_SIZE_MB * 100 ≤ 80
  have h : ¬get_db_size_mb witC9 / MAX_DB_SIZE_MB * 100 > 80 := by
    rw [usage_gt_80_iff]
    decide
  linarith

/-! ## C4 -/

/-- C4 counterexample: on an over-budget store that already holds the
sanitized target text, the duplicate `add_sample` call does not return the
rejected/False result at all: the pre-insert budget check raises out of
`smart_cleanup`'s `VACUUM` (inside the implicit transaction opened by the
cleanup deletes) and the exception propagates — the samples table survives
only because the transaction rolls back.  The claim's promised False return
therefore fails at this input. -/
theorem C4_counterexample :
    (∃ r ∈ exC4.samples, r.text = sanitize_text "this is the target sample text") ∧
    add_sample exC4 "this is the target sample text" =
      (exC4, CallResult.raised DbErr.vacuumFailed) := by
  have hb : get_db_size_mb exC4 > MAX_DB_SIZE_MB := by
    rw [size_gt_budget_iff]; decide
  have hc : check_storage_and_cleanup exC4 = (exC4, Except.error DbErr.vacuumFailed) :=
    check_storage_eq_vacuum_fail hb (by decide)
  refine ⟨⟨⟨1, 12, "this is the target sample text"⟩, by decide, by decide⟩, ?_⟩
  unfold add_sample
  rw [if_neg (by decide), hc]

/-- C4 (amended): when the store is within the storage budget — so the
pre-insert cleanup does not run — `add_sample` on a text whose sanitized form
already exists returns False and leaves the store, in particular the samples
row count, entirely unchanged.  (Over budget the call never reaches the
duplicate check: it raises out of the storage check, whose `VACUUM` cannot
run inside the implicit transaction, and returns no False at all.) -/
theorem C4_duplicate_add_sample_within_budget :
    ∀ (st : Store) (t : String),
      ¬get_db_size_mb st > MAX_DB_SIZE_MB →
      10 ≤ (sanitize_text t).length →
      (∃ r ∈ st.samples, r.text = sanitize_text t) →
      add_sample st t = (st, CallResult.ret false) := by
  intro st t hb hlen hdup
  have hne : ¬(sanitize_text t = "" ∨ (sanitize_text t).length < 10) := by
    push_neg
    refine ⟨?_, by omega⟩
    intro he
    rw [he] at hlen
    simp at hlen
  have hany : (st.samples.any fun r => r.text == sanitize_text t) = true := by
    rcases hdup with ⟨r, hr, hrt⟩
    exact List.any_eq_true.2 ⟨r, hr, by simp [hrt]⟩
  unfold add_sample
  rw [if_neg hne, check_storage_within_budget hb]
  dsimp only
  rw [if_pos hany]

/-- C4 witness: the amended theorem at a concrete in-budget store that already
holds the sanitized text. -/
theorem C4_witness :
    add_sample witC4 "hello world writing sample" = (witC4, CallResult.ret false) :=
  C4_duplicate_add_sample_within_budget witC4 "hello world writing sample"
    (by rw [size_gt_budget_iff]; decide) (by decide)
    ⟨⟨1, 5, "hello world writing sample"⟩, by decide, by decide⟩

/-! ## C5 -/

/-- C5: weak negative feedback is never persisted — for any store and any
weight that is negative with absolute value below 0.3 (such as −0.1) the call
returns False before touching anything (the filter precedes even the budget
check), while a −0.5 call on an in-budget store inserts exactly one row
carrying that weight and returns True. -/
theorem C5_weak_negative_feedback_not_persisted :
    (∀ (st : Store) (ld : LearningData) (w : ℚ), w < 0 → |w| < 3/10 →
        add_interaction_feedback st ld w = (st, CallResult.ret false)) ∧
    (∀ (st : Store) (ld : LearningData),
        ¬get_db_size_mb st > MAX_DB_SIZE_MB →
        add_interaction_feedback st ld (-(1/2)) =
          ({ st with
              interaction_feedback := st.interaction_feedback ++
                [⟨st.nextFeedbackId, st.now, ld.interaction_type,
                  String.mk (ld.original_email.data.take 200),
                  String.mk (ld.suggestion.data.take 200),
                  ld.feedback, -(1/2), compressContext ld.ctx⟩],
              nextFeedbackId := st.nextFeedbackId + 1 },
            CallResult.ret true)) := by
  constructor
  · intro st ld w hw habs
    unfold add_interaction_feedback
    rw [if_pos ⟨hw, habs⟩]
  · intro st ld hb
    have hcond : ¬((-(1/2) : ℚ) < 0 ∧ |(-(1/2) : ℚ)| < 3/10) := by
      rw [abs_neg, abs_of_nonneg (by norm_num : (0:ℚ) ≤ 1/2)]
      rintro ⟨-, h2⟩
      norm_num at h2
    unfold add_interaction_feedback
    rw [if_neg hcond, check_storage_within_budget hb]

/-- C5 witness: the theorem at a concrete in-budget store — a −0.1 call is
rejected with the store untouched, a −0.5 call returns True. -/
theorem C5_witness :
    add_interaction_feedback witC5 witLD (-(1/10)) = (witC5, CallResult.ret false) ∧
    (add_interaction_feedback witC5 witLD (-(1/2))).2 = CallResult.ret true := by
  constructor
  · exact C5_weak_negative_feedback_not_persisted.1 witC5 witLD (-(1/10)) (by norm_num)
      (by rw [abs_neg, abs_of_nonneg (by norm_num : (0:ℚ) ≤ 1/10)]; norm_num)
  · rw [C5_weak_negative_feedback_not_persisted.2 witC5 witLD
      (by rw [size_gt_budget_iff]; decide)]

/-! ## C10 -/

/-- C10 counterexample: non-negative feedback is not always persisted — on an
over-budget store the call with weight 1/2 raises out of the pre-insert
cleanup (`VACUUM` inside the implicit transaction) and inserts nothing: no
row is added and the call returns no value at all, refuting the claim's
unconditional insert-and-return-true. -/
theorem C10_counterexample :
    (0 : ℚ) ≤ 1/2 ∧
    add_interaction_feedback exC10 witLD (1/2) =
      (exC10, CallResult.raised DbErr.vacuumFailed) ∧
    exC10.interaction_feedback = [] := by
  have hb : get_db_size_mb exC10 > MAX_DB_SIZE_MB := by
    rw [size_gt_budget_iff]; decide
  have hc : check_storage_and_cleanup exC10 = (exC10, Except.error DbErr.vacuumFailed) :=
    check_storage_eq_vacuum_fail hb (by decide)
  refine ⟨by norm_num, ?_, rfl⟩
  unfold add_interaction_feedback
  rw [if_neg (by norm_num), hc]

/-- C10 (amended): the weak-signal filter does apply only to negative weights
— a call with weight ≥ 0 is never rejected by the filter, whatever its
magnitude — and on a store within the storage budget every such call inserts
exactly one `interaction_feedback` row carrying that weight and returns True.
Over budget the unconditional persistence fails: the call raises out of the
pre-insert cleanup and inserts nothing (see the counterexample). -/
theorem C10_nonnegative_feedback_persisted :
    (∀ (st : Store) (ld : LearningData) (w : ℚ), 0 ≤ w →
        (add_interaction_feedback st ld w).2 ≠ CallResult.ret false) ∧
    (∀ (st : Store) (ld : LearningData) (w : ℚ), 0 ≤ w →
        ¬get_db_size_mb st > MAX_DB_SIZE_MB →
        add_interaction_feedback st ld w =
          ({ st with
              interaction_feedback := st.interaction_feedback ++
                [⟨st.nextFeedbackId, st.now, ld.interaction_type,
                  String.mk (ld.original_email.data.take 200),
                  String.mk (ld.suggestion.data.take 200),
                  ld.feedback, w, compressContext ld.ctx⟩],
              nextFeedbackId := st.nextFeedbackId + 1 },
            CallResult.ret true)) := by
  constructor
  · intro st ld w hw
    unfold add_interaction_feedback
    rw [if_neg (by rintro ⟨h1, -⟩; exact absurd h1 (not_lt.2 hw))]
    rcases hc : check_storage_and_cleanup st with ⟨st1, r⟩
    cases r <;> simp
  · intro st ld w hw hb
    unfold add_interaction_feedback
    rw [if_neg (by rintro ⟨h1, -⟩; exact absurd h1 (not_lt.2 hw)),
      check_storage_within_budget hb]

/-- C10 witness: weight 0 is never filter-rejected, and weight 0.1 on a small
in-budget store is persisted with the call returning True. -/
theorem C10_witness :
    (add_interaction_feedback witC10 witLD 0).2 ≠ CallResult.ret false ∧
    (add_interaction_feedback witC10 witLD (1/10)).2 = CallResult.ret true := by
  constructor
  · exact C10_nonnegative_feedback_persisted.1 witC10 witLD 0 le_rfl
  · rw [C10_nonnegative_feedback_persisted.2 witC10 witLD (1/10) (by norm_num)
      (by rw [size_gt_budget_iff]; decide)]

/-! ## C7 -/

/-- C7: when the weights file is absent or at most 1000 bytes, `load_model`
(the `EnsureLoaded` of the spec) returns false and leaves the slot exactly as
it was apart from the `LAST_USED` refresh — no handle is created and the
loaded flag keeps its (false) value — and `generate` answers with the
rule-based `fallback_reply` and `from_model = False` instead of a model
reply. -/
theorem C7_missing_weights_unloaded_fallback :
    ∀ (env : ServerEnv) (s : ServerState) (now : Int) (email tone lenP : String),
      (∀ sz, env.modelFile = some sz → sz ≤ 1000) →
      s.llama = none → s.modelLoaded = false → email ≠ "" →
      (load_model env s now false).2 = false ∧
      (load_model env s now false).1.llama = none ∧
      (load_model env s now false).1.modelLoaded = false ∧
      generate env s now email tone lenP =
        ({ s with lastUsed := now },
          ⟨false, some false, fallback_reply email tone lenP⟩) := by
  intro env s now email tone lenP hsz hllama hmod hemail
  have hexists : model_exists env = false := by
    unfold model_exists
    cases hmf : env.modelFile with
    | none => rfl
    | some sz =>
      have hle := hsz sz hmf
      simp only [decide_eq_false_iff_not]
      omega
  have hloadGen : ∀ s' : ServerState, s'.llama = none →
      load_model env s' now false = ({ s' with lastUsed := now }, false) := by
    intro s' hl
    unfold load_model
    simp [hl, hexists]
  have hload := hloadGen s hllama
  have hgen : generate env s now email tone lenP =
      ({ s with lastUsed := now },
        ⟨false, some false, fallback_reply email tone lenP⟩) := by
    unfold generate
    rw [if_neg hemail]
    dsimp only
    have h2 := hloadGen { s with lastUsed := now } hllama
    dsimp only at h2
    rw [h2]
  refine ⟨?_, ?_, ?_, hgen⟩
  · rw [hload]
  · rw [hload]
    exact hllama
  · rw [hload]
    exact hmod

/-- C7 witness: a 500-byte weights file, an unloaded slot, a nonempty email. -/
theorem C7_witness :
    (load_model witEnv witSlot7 42 false).2 = false ∧
    (load_model witEnv witSlot7 42 false).1.llama = none ∧
    (load_model witEnv witSlot7 42 false).1.modelLoaded = false ∧
    generate witEnv witSlot7 42 "hello there" "professional" "medium" =
      ({ witSlot7 with lastUsed := 42 },
        ⟨false, some false, fallback_reply "hello there" "professional" "medium"⟩) :=
  C7_missing_weights_unloaded_fallback witEnv witSlot7 42 "hello there" "professional"
    "medium" (fun sz hsz => by simp [witEnv] at hsz; omega) rfl rfl (by decide)

/-! ## C6 -/

/-- C6: if the slot is loaded with `LAST_USED = L > 0` and no `Generate` call
ever occurs (the monitor model holds `lastUsed` fixed), then the idle monitor
— waking at `t0 + 15·(k+1)` for a loop started no later than `L` — evicts the
slot at some wake `k` that falls within one monitor interval after the unload
threshold elapses (`L + 60 < t0 + 15·k ≤ L + 60 + 15`), leaving
`modelLoaded = false` with the handle destroyed, and the loop terminates:
every later iteration is a no-op. -/
theorem C6_idle_monitor_unloads_and_terminates :
    ∀ (s : ServerState) (t0 : Int),
      s.modelLoaded = true → s.llama.isSome = true → 0 < s.lastUsed →
      t0 ≤ s.lastUsed →
      ∃ k : Nat,
        (monitorRun s t0 k).modelLoaded = false ∧
        (monitorRun s t0 k).llama = none ∧
        s.lastUsed + IDLE_TIMEOUT < t0 + MONITOR_INTERVAL * (k : Int) ∧
        t0 + MONITOR_INTERVAL * (k : Int) ≤
          s.lastUsed + IDLE_TIMEOUT + MONITOR_INTERVAL ∧
        ∀ j : Nat, monitorRun s t0 (k + j) = monitorRun s t0 k := by
  intro s t0 hml hsome hpos ht0
  set L : Int := s.lastUsed with hL
  have hd0 : (0 : Int) ≤ L + 60 - t0 := by omega
  set d : Nat := (L + 60 - t0).toNat with hdd
  have hdI : (d : Int) = L + 60 - t0 := Int.toNat_of_nonneg hd0
  -- the monitor is a fixpoint up to the triggering wake
  have hstable : ∀ j : Nat, j ≤ d / 15 → monitorRun s t0 j = s := by
    intro j hj
    induction j with
    | zero => rfl
    | succ i ih =>
      have hi : i ≤ d / 15 := Nat.le_of_succ_le hj
      have hrun : monitorRun s t0 (i + 1) =
          if (monitorRun s t0 i).modelLoaded then
            monitor_body (monitorRun s t0 i) (t0 + MONITOR_INTERVAL * (i + 1 : Nat))
          else monitorRun s t0 i := rfl
      rw [hrun, ih hi, hml, if_pos rfl]
      unfold monitor_body
      rw [if_pos ⟨hml, hpos⟩, if_neg ?idle]
      case idle =>
        have h15 : (15 : Int) * ((i : Int) + 1) ≤ (d : Int) := by
          have hle : 15 * (i + 1) ≤ d := by omega
          exact_mod_cast hle
        unfold IDLE_TIMEOUT MONITOR_INTERVAL
        push_neg
        push_cast
        omega
  have hunl : (unload_model s).modelLoaded = false := by
    unfold unload_model
    rw [if_pos hsome]
  have hunlN : (unload_model s).llama = none := by
    unfold unload_model
    rw [if_pos hsome]
  have hstep : monitorRun s t0 (d / 15 + 1) = unload_model s := by
    have hrun : monitorRun s t0 (d / 15 + 1) =
        if (monitorRun s t0 (d / 15)).modelLoaded then
          monitor_body (monitorRun s t0 (d / 15))
            (t0 + MONITOR_INTERVAL * (d / 15 + 1 : Nat))
        else monitorRun s t0 (d / 15) := rfl
    rw [hrun, hstable (d / 15) le_rfl, hml, if_pos rfl]
    unfold monitor_body
    rw [if_pos ⟨hml, hpos⟩, if_pos ?trig]
    case trig =>
      unfold IDLE_TIMEOUT MONITOR_INTERVAL
      have h15 : (d : Int) < 15 * ((d / 15 : Nat) + 1 : Int) := by
        have hn : d < 15 * (d / 15 + 1) := by omega
        exact_mod_cast hn
      push_cast
      omega
  have hlt : (d : Int) < 15 * ((d / 15 : Nat) + 1 : Int) := by
    have hn : d < 15 * (d / 15 + 1) := by omega
    exact_mod_cast hn
  have hge : 15 * ((d / 15 : Nat) + 1 : Int) ≤ (d : Int) + 15 := by
    have hn : 15 * (d / 15 + 1) ≤ d + 15 := by omega
    exact_mod_cast hn
  refine ⟨d / 15 + 1, ?_, ?_, ?_, ?_, ?_⟩
  · rw [hstep, hunl]
  · rw [hstep, hunlN]
  · unfold IDLE_TIMEOUT MONITOR_INTERVAL
    push_cast
    omega
  · unfold IDLE_TIMEOUT MONITOR_INTERVAL
    push_cast
    omega
  · intro j
    induction j with
    | zero => rfl
    | succ i ih =>
      have hrun : monitorRun s t0 (d / 15 + 1 + (i + 1)) =
          if (monitorRun s t0 (d / 15 + 1 + i)).modelLoaded then
            monitor_body (monitorRun s t0 (d / 15 + 1 + i))
              (t0 + MONITOR_INTERVAL * (d / 15 + 1 + i + 1 : Nat))
          else monitorRun s t0 (d / 15 + 1 + i) := rfl
      rw [hrun, ih, hstep, hunl]
      simp

/-- C6 witness: the theorem at a concrete loaded slot (last used at time 100,
monitor started at 100). -/
theorem C6_witness :
    ∃ k : Nat,
      (monitorRun witSlot 100 k).modelLoaded = false ∧
      (monitorRun witSlot 100 k).llama = none ∧
      witSlot.lastUsed + IDLE_TIMEOUT < 100 + MONITOR_INTERVAL * (k : Int) ∧
      100 + MONITOR_INTERVAL * (k : Int) ≤
        witSlot.lastUsed + IDLE_TIMEOUT + MONITOR_INTERVAL ∧
      ∀ j : Nat, monitorRun witSlot 100 (k + j) = monitorRun witSlot 100 k :=
  C6_idle_monitor_unloads_and_terminates witSlot 100 rfl rfl
    (by show (0 : Int) < 100; norm_num) (by show (100 : Int) ≤ 100; norm_num)

/-! ## C2 -/

/-- C2 (code bug): `deep_cleanup` can never do its job.  Its emergency
`DELETE`s open an implicit transaction, the `VACUUM` at personalization.py:300
then always raises `OperationalError: cannot VACUUM from within a
transaction`, and the uncommitted deletes and table drop roll back — so for
every store the call leaves the state untouched and announces nothing but the
unrelated `OperationalError`.  In particular it neither brings usage within
the budget nor reports any StorageCritical condition; the store is also
trivially never larger afterwards, being unchanged. -/
theorem C2_deep_cleanup_always_raises (st : Store) :
    deep_cleanup st = (st, some DbErr.vacuumFailed) ∧
    get_db_size_mb (deep_cleanup st).1 = get_db_size_mb st :=
  ⟨rfl, rfl⟩

/-! ## C8 -/

/-- C8 counterexample: on an over-budget store holding a pair whose
`chosen_reply` equals the incoming sanitized reply, `add_training_pair` does
not return a rejection: the pre-insert budget check raises out of
`smart_cleanup`'s `VACUUM` (inside the implicit transaction opened by the
cleanup deletes) before the duplicate check is ever reached.  Nothing is
inserted, but no False is returned either — refuting the claim's promise of a
rejection return for every conflicting call. -/
theorem C8_counterexample :
    (∃ p ∈ exC8.training_pairs,
        p.chosen_reply = sanitize_text "the reply we will collide with") ∧
    add_training_pair exC8 "a freshly arriving original email body"
        "the reply we will collide with" ⟨none, none⟩ =
      (exC8, CallResult.raised DbErr.vacuumFailed) := by
  have hb : get_db_size_mb exC8 > MAX_DB_SIZE_MB := by
    rw [size_gt_budget_iff]; decide
  have hc : check_storage_and_cleanup exC8 = (exC8, Except.error DbErr.vacuumFailed) :=
    check_storage_eq_vacuum_fail hb (by decide)
  refine ⟨⟨⟨1, 0, "an earlier stored original email", "the reply we will collide with",
      "professional", "medium", 0⟩, by decide, by decide⟩, ?_⟩
  unfold add_training_pair
  rw [if_neg (by decide), if_neg (by decide), hc]

/-- C8 (amended): the duplicate check of `add_training_pair` runs only after
the pre-insert budget check.  Within the storage budget that check leaves the
store untouched, so a call whose sanitized original or reply already occurs
in some stored pair returns False and changes nothing; and every call — in or
over budget, raising or not — preserves the pairwise uniqueness invariant,
because the budget check never adds rows and the insert branch runs only when
no stored pair matches either field.  The claim's unqualified rejection
guarantee fails over budget, where the call raises out of the cleanup instead
of returning a rejection (see the counterexample). -/
theorem C8_pair_uniqueness (st : Store) (oIn rIn : String) (ctx : Ctx) :
    ((¬get_db_size_mb st > MAX_DB_SIZE_MB) →
      (∃ p ∈ st.training_pairs,
          p.original_email = sanitize_text oIn ∨ p.chosen_reply = sanitize_text rIn) →
      add_training_pair st oIn rIn ctx = (st, CallResult.ret false)) ∧
    (PairsUnique st.training_pairs →
      PairsUnique (add_training_pair st oIn rIn ctx).1.training_pairs) := by
  constructor
  · intro hb hconf
    obtain ⟨p, hp, hor⟩ := hconf
    unfold add_training_pair
    dsimp only
    split
    · rfl
    split
    · rfl
    rw [check_storage_within_budget hb]
    dsimp only
    rw [if_pos (List.any_eq_true.mpr ⟨p, hp, by
      rcases hor with h | h <;> simp [h]⟩)]
  · intro hu
    unfold PairsUnique at hu ⊢
    unfold add_training_pair
    split
    next st1 e2 heq =>
      dsimp only
      split
      · exact hu
      · split
        · exact hu
        · have hs := check_storage_pairs_sublist st
          rw [heq] at hs
          exact hu.sublist hs
    next st1 b heq =>
      dsimp only
      split
      · exact hu
      · split
        · exact hu
        · have hs := check_storage_pairs_sublist st
          rw [heq] at hs
          have h1 := hu.sublist hs
          split
          next hdup => exact h1
          next hdup =>
            dsimp only
            rw [List.pairwise_append]
            refine ⟨h1, List.pairwise_singleton _ _, ?_⟩
            intro p hp q hq
            rw [List.mem_singleton] at hq
            subst hq
            simp only [List.any_eq_true, Bool.or_eq_true, beq_iff_eq] at hdup
            push_neg at hdup
            have h2 := hdup p hp
            exact ⟨h2.1, h2.2⟩

theorem C8_witness :
    add_training_pair witC8 "a different long original email text" "a stored reply text"
        ⟨none, none⟩ = (witC8, CallResult.ret false) ∧
    PairsUnique (add_training_pair witC8 "a different long original email text"
        "a stored reply text" ⟨none, none⟩).1.training_pairs :=
  ⟨(C8_pair_uniqueness witC8 "a different long original email text" "a stored reply text"
        ⟨none, none⟩).1
      (by rw [size_gt_budget_iff]; decide)
      ⟨⟨1, 5, "an original email that is long enough", "a stored reply text",
          "professional", "medium", 0⟩, by decide, Or.inr (by decide)⟩,
    (C8_pair_uniqueness witC8 "a different long original email text" "a stored reply text"
        ⟨none, none⟩).2
      (by unfold PairsUnique
          rw [show witC8.training_pairs = [⟨1, 5, "an original email that is long enough",
            "a stored reply text", "professional", "medium", 0⟩] from rfl]
          exact List.pairwise_singleton _ _)⟩

/-! ## C3 -/

/-- C3 (code bug): `smart_cleanup` never completes, so the sample cap is never
enforced.  For every store the call raises — the malformed training-pair trim
statement when the in-transaction pair count exceeds its cap, otherwise the
`VACUUM` inside the implicit transaction opened by the dedup deletes — and
the rolled-back transaction leaves the store exactly as it was.  No execution
reaches the function's return, so there is no after-Cleanup state in which
`samples ≤ MAX_SAMPLES` could hold by its doing, and the retention tiers have
no observable effect. -/
theorem C3_cleanup_never_completes (st : Store) :
    (smart_cleanup st).1 = st ∧ ∃ e, (smart_cleanup st).2 = Except.error e := by
  refine ⟨smart_cleanup_fst st, ?_⟩
  rw [smart_cleanup_snd]
  split
  · exact ⟨DbErr.sqlSyntax, rfl⟩
  · exact ⟨DbErr.vacuumFailed, rfl⟩

end SvarX
